import Mathlib

/-!
Verification of the TFTP wire-format codec (tftp/datagram.py).

Byte strings are modelled as lists of naturals; every operation of the
codec is translated into an executable Lean function.  Exceptions raised
by the Python code are modelled by the explicit error type `TFTPError`,
whose constructors correspond one-to-one to the exception classes raised
in the source (`WireProtocolError`, `PayloadDecodeError`,
`InvalidOpcodeError`, `InvalidErrorcodeError`).  Fallible operations
return `Except TFTPError _` (or `Option _` for serialization, where a
`struct.error` would escape uncaught).
-/

namespace TFTP

/-- A byte string: Python 2 `str` values are sequences of bytes. -/
abbrev Bytes := List Nat

/-- ASCII bytes of a Lean string literal, used to express the registry's
default messages and concrete test inputs. -/
def strBytes (s : String) : Bytes := s.toList.map Char.toNat

/-- The exception classes raised in `tftp/datagram.py`.  `payloadDecodeError`
carries the optional message argument (`PayloadDecodeError()` is raised with
no argument in `DATADatagram.from_wire`). -/
inductive TFTPError where
  | wireProtocolError (msg : String)
  | payloadDecodeError (msg : Option String)
  | invalidOpcodeError (opcode : Nat)
  | invalidErrorcodeError (errorcode : Nat)
deriving DecidableEq, Repr

/-- The five message kinds, a closed sum distinguished by opcode:
RRQ (1), WRQ (2), DATA (3), ACK (4), ERROR (5). -/
inductive Datagram where
  | rrq (filename mode : Bytes)
  | wrq (filename mode : Bytes)
  | data (blocknum : Nat) (payload : Bytes)
  | ack (blocknum : Nat)
  | error (errorcode : Nat) (errmsg : Bytes)
deriving DecidableEq, Repr

instance {ε α : Type} [DecidableEq ε] [DecidableEq α] : DecidableEq (Except ε α) :=
  fun a b =>
    match a, b with
    | Except.error e, Except.error f => decidable_of_iff (e = f) (by simp)
    | Except.ok x, Except.ok y => decidable_of_iff (x = y) (by simp)
    | Except.error _, Except.ok _ => isFalse (fun hh => Except.noConfusion hh)
    | Except.ok _, Except.error _ => isFalse (fun hh => Except.noConfusion hh)

/-- Python `s.lower()` on a byte string: ASCII uppercase letters are
shifted to lowercase, all other bytes are unchanged. -/
def pyLower (bs : Bytes) : Bytes :=
  bs.map fun b => if 65 ≤ b ∧ b ≤ 90 then b + 32 else b

/-- Python `s.split(sep)` for a single-byte separator: the list of chunks
between occurrences of `sep`.  Always returns at least one (possibly
empty) chunk, exactly like Python (`"".split(x) == [""]`). -/
def pySplit (sep : Nat) : Bytes → List Bytes
  | [] => [[]]
  | b :: rest =>
    if b = sep then [] :: pySplit sep rest
    else
      match pySplit sep rest with
      | [] => [[b]]
      | r :: rs => (b :: r) :: rs

/-- Python `struct.pack("!H", n)`: the two big-endian bytes of `n`, or
`none` when `n` does not fit in 16 bits (a `struct.error`). -/
def pack16 (n : Nat) : Option Bytes :=
  if n < 65536 then some [n / 256, n % 256] else none

/-- The `errors` registry of `tftp/datagram.py`: default messages for the
eight standard error codes.  `none` means the code is not in the dict. -/
def errors (c : Nat) : Option Bytes :=
  if c = 0 then some []
  else if c = 1 then some (strBytes ("File not found"))
  else if c = 2 then some (strBytes ("Access violation"))
  else if c = 3 then some (strBytes ("Disk full or allocation exceeded"))
  else if c = 4 then some (strBytes ("Illegal TFTP operation"))
  else if c = 5 then some (strBytes ("Unknown transfer ID"))
  else if c = 6 then some (strBytes ("File already exists"))
  else if c = 7 then some (strBytes ("No such user"))
  else none

/-- `split_opcode`: unpack the first two bytes as a big-endian u16 and
return it with the remaining payload; `struct.unpack` fails when the
buffer holds fewer than two bytes, turned into a `WireProtocolError`. -/
def split_opcode (datagram : Bytes) : Except TFTPError (Nat × Bytes) :=
  match datagram with
  | b0 :: b1 :: rest => Except.ok (b0 * 256 + b1, rest)
  | _ => Except.error (TFTPError.wireProtocolError ("Failed to extract the opcode"))

/-- `RQDatagram.__init__`: stores the filename unchanged and the mode
lower-cased; `cls` selects the concrete class (RRQ or WRQ). -/
def RRQDatagram.init (filename mode : Bytes) : Datagram :=
  Datagram.rrq filename (pyLower mode)

/-- `WRQDatagram` construction, sharing `RQDatagram.__init__`. -/
def WRQDatagram.init (filename mode : Bytes) : Datagram :=
  Datagram.wrq filename (pyLower mode)

/-- `DATADatagram.__init__`: stores both fields unchanged. -/
def DATADatagram.init (blocknum : Nat) (payload : Bytes) : Datagram :=
  Datagram.data blocknum payload

/-- `ACKDatagram.__init__`: stores the block number unchanged. -/
def ACKDatagram.init (blocknum : Nat) : Datagram :=
  Datagram.ack blocknum

/-- `ERRORDatagram.__init__`: stores both fields unchanged — note that it
performs no validation of the error code. -/
def ERRORDatagram.init (errorcode : Nat) (errmsg : Bytes) : Datagram :=
  Datagram.error errorcode errmsg

/-- `RQDatagram.from_wire`: split the payload on NUL bytes and build the
datagram from the first two fields; `IndexError` (fewer than two fields)
becomes a `PayloadDecodeError`. -/
def RQDatagram.from_wire (cls : Bytes → Bytes → Datagram) (payload : Bytes) :
    Except TFTPError Datagram :=
  match pySplit 0 payload with
  | p0 :: p1 :: _ => Except.ok (cls p0 p1)
  | _ => Except.error (TFTPError.payloadDecodeError (some ("Not enough fields in the payload")))

/-- `DATADatagram.from_wire`: first two bytes are the block number, the
rest is the data; `struct.error` on a short payload becomes a bare
`PayloadDecodeError()`. -/
def DATADatagram.from_wire (payload : Bytes) : Except TFTPError Datagram :=
  match payload with
  | b0 :: b1 :: rest => Except.ok (Datagram.data (b0 * 256 + b1) rest)
  | _ => Except.error (TFTPError.payloadDecodeError none)

/-- `ACKDatagram.from_wire`: `struct.unpack("!H", payload)` requires the
payload to be exactly two bytes; any other length raises the same
`PayloadDecodeError`. -/
def ACKDatagram.from_wire (payload : Bytes) : Except TFTPError Datagram :=
  match payload with
  | [b0, b1] => Except.ok (Datagram.ack (b0 * 256 + b1))
  | _ => Except.error (TFTPError.payloadDecodeError (some ("Unable to extract the block number")))

/-- `ERRORDatagram.from_wire`: first two bytes are the error code (short
payload raises `PayloadDecodeError`); an unknown code raises
`InvalidErrorcodeError`; the message is the remainder up to the first
NUL, with the registry default substituted when it is empty. -/
def ERRORDatagram.from_wire (payload : Bytes) : Except TFTPError Datagram :=
  match payload with
  | b0 :: b1 :: rest =>
    let errorcode := b0 * 256 + b1
    match errors errorcode with
    | none => Except.error (TFTPError.invalidErrorcodeError errorcode)
    | some dflt =>
      let errmsg := (pySplit 0 rest).headD []
      Except.ok (Datagram.error errorcode (if errmsg = [] then dflt else errmsg))
  | _ => Except.error (TFTPError.payloadDecodeError (some ("Unable to extract the error code")))

/-- `ERRORDatagram.from_code`: validates the code against the registry and
defaults the message from the registry when it is omitted. -/
def ERRORDatagram.from_code (errorcode : Nat) (errmsg : Option Bytes) :
    Except TFTPError Datagram :=
  match errors errorcode with
  | none => Except.error (TFTPError.invalidErrorcodeError errorcode)
  | some dflt => Except.ok (ERRORDatagram.init errorcode (errmsg.getD dflt))

/-- The `to_wire` methods of the five classes: opcode, then the fields in
wire layout.  `struct.pack` fails (`none`) when a numeric field does not
fit in 16 bits. -/
def to_wire : Datagram → Option Bytes
  | Datagram.rrq filename mode =>
    (pack16 1).map fun op => op ++ filename ++ [0] ++ mode ++ [0]
  | Datagram.wrq filename mode =>
    (pack16 2).map fun op => op ++ filename ++ [0] ++ mode ++ [0]
  | Datagram.data blocknum payload =>
    (pack16 3).bind fun op => (pack16 blocknum).map fun bn => op ++ bn ++ payload
  | Datagram.ack blocknum =>
    (pack16 4).bind fun op => (pack16 blocknum).map fun bn => op ++ bn
  | Datagram.error errorcode errmsg =>
    (pack16 5).bind fun op => (pack16 errorcode).map fun ec => op ++ ec ++ errmsg ++ [0]

/-- `_TFTPDatagramFactory.__call__`: look the opcode up in the class dict
and delegate to that class's `from_wire`; an unknown opcode raises
`InvalidOpcodeError`. -/
def TFTPDatagramFactory (opcode : Nat) (payload : Bytes) : Except TFTPError Datagram :=
  if opcode = 1 then RQDatagram.from_wire RRQDatagram.init payload
  else if opcode = 2 then RQDatagram.from_wire WRQDatagram.init payload
  else if opcode = 3 then DATADatagram.from_wire payload
  else if opcode = 4 then ACKDatagram.from_wire payload
  else if opcode = 5 then ERRORDatagram.from_wire payload
  else Except.error (TFTPError.invalidOpcodeError opcode)

/-- The round-trip pipeline of the spec:
`Factory.create(*Splitter.split(M.serialize()))`, with `none` when any
stage fails. -/
def roundtrip (M : Datagram) : Option Datagram :=
  match to_wire M with
  | none => none
  | some w =>
    match split_opcode w with
    | Except.error _ => none
    | Except.ok (op, p) =>
      match TFTPDatagramFactory op p with
      | Except.error _ => none
      | Except.ok d => some d

/-! ### Helper lemmas about the byte-string primitives -/

/-- `pySplit` never returns the empty list of chunks. -/
theorem pySplit_ne_nil (sep : Nat) (bs : Bytes) : pySplit sep bs ≠ [] := by
  cases bs with
  | nil => simp [pySplit]
  | cons b rest =>
    simp only [pySplit]
    split
    · simp
    · split
      · simp
      · simp

/-- Splitting a separator-free byte string yields that string as the only
chunk. -/
theorem pySplit_no_sep (sep : Nat) (a : Bytes) (h : sep ∉ a) : pySplit sep a = [a] := by
  induction a with
  | nil => rfl
  | cons b rest ih =>
    have hb : b ≠ sep := by
      intro hbe
      exact h (hbe ▸ List.mem_cons_self b rest)
    have hrest : sep ∉ rest := fun hm => h (List.mem_cons_of_mem b hm)
    simp only [pySplit, if_neg hb, ih hrest]

/-- Splitting a string of the form `a ++ sep :: rest` with `sep ∉ a`
yields `a` as the first chunk followed by the chunks of `rest`. -/
theorem pySplit_append (sep : Nat) (a rest : Bytes) (h : sep ∉ a) :
    pySplit sep (a ++ sep :: rest) = a :: pySplit sep rest := by
  induction a with
  | nil => simp [pySplit]
  | cons b tl ih =>
    have hb : b ≠ sep := by
      intro hbe
      exact h (hbe ▸ List.mem_cons_self b tl)
    have htl : sep ∉ tl := fun hm => h (List.mem_cons_of_mem b hm)
    simp only [List.cons_append, pySplit, if_neg hb, List.append_eq, ih htl]

/-- The number of chunks is the number of separators plus one. -/
theorem pySplit_length (sep : Nat) (bs : Bytes) :
    (pySplit sep bs).length = bs.count sep + 1 := by
  induction bs with
  | nil => simp [pySplit]
  | cons b rest ih =>
    simp only [pySplit]
    by_cases hb : b = sep
    · subst hb
      simp [ih, List.count_cons]
    · have hne : pySplit sep rest ≠ [] := pySplit_ne_nil sep rest
      rw [if_neg hb]
      cases hr : pySplit sep rest with
      | nil => exact absurd hr hne
      | cons r rs =>
        simp only [List.length_cons]
        have := ih
        rw [hr] at this
        simp only [List.length_cons] at this
        simp [List.count_cons, hb, ← this]

/-- The first chunk of a split is the prefix up to the first separator. -/
theorem pySplit_headD (sep : Nat) (bs : Bytes) :
    (pySplit sep bs).headD [] = bs.takeWhile (fun b => b != sep) := by
  induction bs with
  | nil => rfl
  | cons b rest ih =>
    simp only [pySplit, List.takeWhile_cons]
    by_cases hb : b = sep
    · subst hb
      simp
    · have hne : pySplit sep rest ≠ [] := pySplit_ne_nil sep rest
      rw [if_neg hb]
      cases hr : pySplit sep rest with
      | nil => exact absurd hr hne
      | cons r rs =>
        rw [hr] at ih
        simp only [List.headD_cons] at ih
        simp [hb, ih]

/-- Lower-casing maps no byte to NUL, hence preserves NUL-freeness. -/
theorem pyLower_zero_not_mem (m : Bytes) (h : 0 ∉ m) : 0 ∉ pyLower m := by
  intro hmem
  simp only [pyLower, List.mem_map] at hmem
  obtain ⟨b, hb, hbe⟩ := hmem
  by_cases hc : 65 ≤ b ∧ b ≤ 90
  · rw [if_pos hc] at hbe
    omega
  · rw [if_neg hc] at hbe
    exact h (hbe ▸ hb)

/-- Lower-casing is idempotent. -/
theorem pyLower_idem (m : Bytes) : pyLower (pyLower m) = pyLower m := by
  simp only [pyLower, List.map_map]
  apply List.map_congr_left
  intro b _
  by_cases hc : 65 ≤ b ∧ b ≤ 90
  · simp only [Function.comp_apply, if_pos hc]
    have : ¬(65 ≤ b + 32 ∧ b + 32 ≤ 90) := by omega
    rw [if_neg this]
  · simp only [Function.comp_apply, if_neg hc, if_neg hc]

/-- A registry default is non-empty for every code other than 0. -/
theorem errors_default_ne_nil (c : Nat) (dflt : Bytes) (hc : c ≠ 0)
    (h : errors c = some dflt) : dflt ≠ [] := by
  unfold errors at h
  split_ifs at h with h0 h1 h2 h3 h4 h5 h6 h7
  · exact absurd h0 hc
  all_goals (cases h; decide)

/-- Registry membership implies the code is one of 0..7. -/
theorem errors_mem_le (c : Nat) (dflt : Bytes) (h : errors c = some dflt) : c ≤ 7 := by
  unfold errors at h
  split_ifs at h <;> omega

/-! ### Claim theorems -/

/-- C8: the opcode splitter returns, for every buffer of length at least 2,
the first two bytes as a big-endian unsigned 16-bit integer together with
the (possibly empty) remainder, and fails with the malformed-header
`WireProtocolError` for every buffer of length 0 or 1. -/
theorem C8_split_opcode (d : Bytes) :
    (∀ b0 b1 rest, d = b0 :: b1 :: rest →
      split_opcode d = Except.ok (b0 * 256 + b1, rest)) ∧
    (d.length < 2 →
      split_opcode d =
        Except.error (TFTPError.wireProtocolError ("Failed to extract the opcode"))) := by
  constructor
  · intro b0 b1 rest hd
    subst hd
    rfl
  · intro hlen
    match d with
    | [] => rfl
    | [b] => rfl
    | b0 :: b1 :: rest =>
      simp only [List.length_cons] at hlen
      omega

/-- Witness for C8 at the concrete buffers 0x0001 0x66 and 0x37. -/
theorem C8_split_opcode_witness :
    split_opcode [0, 1, 102] = Except.ok (1, [102]) ∧
    split_opcode [55] =
      Except.error (TFTPError.wireProtocolError ("Failed to extract the opcode")) := by
  constructor
  · have h := (C8_split_opcode [0, 1, 102]).1 0 1 [102] rfl
    simpa using h
  · exact (C8_split_opcode [55]).2 (by decide)

/-- C3 counterexample: the failure on a 1-byte Ack payload and the failure
on a 9-byte Ack payload are the very same error value (the same
`PayloadDecodeError`), so truncation and trailing data are not
distinguished by kind, contrary to the claim. -/
theorem C3_ack_same_kind_cex :
    ACKDatagram.from_wire [0] =
      ACKDatagram.from_wire [0, 16, 102, 111, 111, 98, 97, 114, 122] ∧
    ACKDatagram.from_wire [0] =
      Except.error (TFTPError.payloadDecodeError (some ("Unable to extract the block number"))) :=
  ⟨rfl, rfl⟩

/-- C3 amended: Ack parse accepts exactly payloads of length 2; every
payload of any other length (shorter or longer) fails with one and the
same `PayloadDecodeError`. -/
theorem C3_ack_exact_length (p : Bytes) :
    (∀ b0 b1, p = [b0, b1] →
      ACKDatagram.from_wire p = Except.ok (Datagram.ack (b0 * 256 + b1))) ∧
    (p.length ≠ 2 →
      ACKDatagram.from_wire p =
        Except.error (TFTPError.payloadDecodeError (some ("Unable to extract the block number")))) := by
  constructor
  · intro b0 b1 hp
    subst hp
    rfl
  · intro hlen
    match p with
    | [] => rfl
    | [b] => rfl
    | [b0, b1] => simp at hlen
    | b0 :: b1 :: b2 :: rest => rfl

/-- Witness for the amended C3 at the payloads 0x000a and 0x0010 0x66. -/
theorem C3_ack_exact_length_witness :
    ACKDatagram.from_wire [0, 10] = Except.ok (Datagram.ack 10) ∧
    ACKDatagram.from_wire [0, 16, 102] =
      Except.error (TFTPError.payloadDecodeError (some ("Unable to extract the block number"))) := by
  constructor
  · have h := (C3_ack_exact_length [0, 10]).1 0 10 rfl
    simpa using h
  · exact (C3_ack_exact_length [0, 16, 102]).2 (by decide)

/-- C5: request parse splits the payload on NUL bytes; a payload without
any NUL yields fewer than 2 fields and fails with the field-count
`PayloadDecodeError`; a payload with a NUL always yields at least 2
fields; and whenever at least 2 fields are present the parse succeeds,
constructing the datagram from the first field (filename) and the second
field (mode), ignoring all later fields. -/
theorem C5_rq_parse (cls : Bytes → Bytes → Datagram) (payload : Bytes) :
    (0 ∉ payload →
      RQDatagram.from_wire cls payload =
        Except.error (TFTPError.payloadDecodeError (some ("Not enough fields in the payload")))) ∧
    (0 ∈ payload → 2 ≤ (pySplit 0 payload).length) ∧
    (∀ p0 p1 rest, pySplit 0 payload = p0 :: p1 :: rest →
      RQDatagram.from_wire cls payload = Except.ok (cls p0 p1)) := by
  refine ⟨?_, ?_, ?_⟩
  · intro h
    unfold RQDatagram.from_wire
    rw [pySplit_no_sep 0 payload h]
  · intro h
    rw [pySplit_length]
    have hpos : 0 < payload.count 0 := List.count_pos_iff.mpr h
    omega
  · intro p0 p1 rest h
    unfold RQDatagram.from_wire
    rw [h]

/-- Witness for C5 at the payloads of the repository's tests:
`foobar` (no NUL) and `foo\x00bar\x00baz`. -/
theorem C5_rq_parse_witness :
    RQDatagram.from_wire RRQDatagram.init (strBytes ("foobar")) =
      Except.error (TFTPError.payloadDecodeError (some ("Not enough fields in the payload"))) ∧
    RQDatagram.from_wire RRQDatagram.init
        (strBytes ("foo") ++ [0] ++ strBytes ("bar") ++ [0] ++ strBytes ("baz")) =
      Except.ok (RRQDatagram.init (strBytes ("foo")) (strBytes ("bar"))) := by
  constructor
  · exact (C5_rq_parse RRQDatagram.init (strBytes ("foobar"))).1 (by decide)
  · exact (C5_rq_parse RRQDatagram.init _).2.2
      (strBytes ("foo")) (strBytes ("bar")) [strBytes ("baz")] (by decide)

/-- C10: a request payload of one NUL-free non-empty field followed by a
single trailing NUL parses successfully, the field becoming the filename
and the empty byte-string the mode — the empty second field counts toward
the required two fields. -/
theorem C10_trailing_nul (f : Bytes) (h1 : f ≠ []) (h2 : 0 ∉ f) :
    RQDatagram.from_wire RRQDatagram.init (f ++ [0]) =
      Except.ok (Datagram.rrq f []) ∧
    RQDatagram.from_wire WRQDatagram.init (f ++ [0]) =
      Except.ok (Datagram.wrq f []) := by
  have hsplit : pySplit 0 (f ++ [0]) = [f, []] := by
    have h := pySplit_append 0 f [] h2
    simpa [pySplit] using h
  constructor
  · unfold RQDatagram.from_wire
    rw [hsplit]
    rfl
  · unfold RQDatagram.from_wire
    rw [hsplit]
    rfl

/-- Witness for C10 at the payload `foo\x00`. -/
theorem C10_trailing_nul_witness :
    RQDatagram.from_wire RRQDatagram.init (strBytes ("foo") ++ [0]) =
      Except.ok (Datagram.rrq (strBytes ("foo")) []) ∧
    RQDatagram.from_wire WRQDatagram.init (strBytes ("foo") ++ [0]) =
      Except.ok (Datagram.wrq (strBytes ("foo")) []) :=
  C10_trailing_nul (strBytes ("foo")) (by decide) (by decide)

/-- C9: both request kinds store the filename unchanged and the mode
lower-cased, on both construction paths — direct construction and wire
parse — and the stored mode contains no ASCII uppercase letter, whatever
the supplied casing. -/
theorem C9_mode_lowercase (f m payload : Bytes) :
    (RRQDatagram.init f m = Datagram.rrq f (pyLower m)) ∧
    (WRQDatagram.init f m = Datagram.wrq f (pyLower m)) ∧
    (∀ b, b ∈ pyLower m → ¬(65 ≤ b ∧ b ≤ 90)) ∧
    (∀ p0 p1 rest, pySplit 0 payload = p0 :: p1 :: rest →
      RQDatagram.from_wire RRQDatagram.init payload =
          Except.ok (Datagram.rrq p0 (pyLower p1)) ∧
      RQDatagram.from_wire WRQDatagram.init payload =
          Except.ok (Datagram.wrq p0 (pyLower p1))) := by
  refine ⟨rfl, rfl, ?_, ?_⟩
  · intro b hb
    simp only [pyLower, List.mem_map] at hb
    obtain ⟨x, _, hx⟩ := hb
    by_cases hc : 65 ≤ x ∧ x ≤ 90
    · rw [if_pos hc] at hx
      omega
    · rw [if_neg hc] at hx
      omega
  · intro p0 p1 rest h
    constructor
    · unfold RQDatagram.from_wire
      rw [h]
      rfl
    · unfold RQDatagram.from_wire
      rw [h]
      rfl

/-- Witness for C9 at mode `OcTeT` and the wire payload `foo\x00MAIL`. -/
theorem C9_mode_lowercase_witness :
    RRQDatagram.init (strBytes ("foo")) (strBytes ("OcTeT")) =
      Datagram.rrq (strBytes ("foo")) (strBytes ("octet")) ∧
    RQDatagram.from_wire RRQDatagram.init (strBytes ("foo") ++ [0] ++ strBytes ("MAIL")) =
      Except.ok (Datagram.rrq (strBytes ("foo")) (strBytes ("mail"))) := by
  constructor
  · have h := (C9_mode_lowercase (strBytes ("foo")) (strBytes ("OcTeT")) []).1
    rw [h]
    decide
  · have h := ((C9_mode_lowercase (strBytes ("foo")) (strBytes ("OcTeT"))
        (strBytes ("foo") ++ [0] ++ strBytes ("MAIL"))).2.2.2
        (strBytes ("foo")) (strBytes ("MAIL")) [] (by decide)).1
    rw [h]
    have hm : pyLower (strBytes ("MAIL")) = strBytes ("mail") := by decide
    rw [hm]

/-- C7: the factory fails with `InvalidOpcodeError(opcode)` for every
opcode outside {1,2,3,4,5}, and on each known opcode its result is
exactly the corresponding variant parser's result on the payload — hence
any parse error is propagated unchanged. -/
theorem C7_factory (opcode : Nat) (payload : Bytes) :
    (opcode ∉ ([1, 2, 3, 4, 5] : List Nat) →
      TFTPDatagramFactory opcode payload =
        Except.error (TFTPError.invalidOpcodeError opcode)) ∧
    (TFTPDatagramFactory 1 payload = RQDatagram.from_wire RRQDatagram.init payload) ∧
    (TFTPDatagramFactory 2 payload = RQDatagram.from_wire WRQDatagram.init payload) ∧
    (TFTPDatagramFactory 3 payload = DATADatagram.from_wire payload) ∧
    (TFTPDatagramFactory 4 payload = ACKDatagram.from_wire payload) ∧
    (TFTPDatagramFactory 5 payload = ERRORDatagram.from_wire payload) := by
  refine ⟨?_, rfl, rfl, rfl, rfl, rfl⟩
  intro h
  simp only [List.mem_cons, List.not_mem_nil, or_false, not_or] at h
  obtain ⟨h1, h2, h3, h4, h5⟩ := h
  unfold TFTPDatagramFactory
  rw [if_neg h1, if_neg h2, if_neg h3, if_neg h4, if_neg h5]

/-- Witness for C7 at opcode 17 with payload `foobar`. -/
theorem C7_factory_witness :
    TFTPDatagramFactory 17 (strBytes ("foobar")) =
      Except.error (TFTPError.invalidOpcodeError 17) :=
  (C7_factory 17 (strBytes ("foobar"))).1 (by decide)

/-- Unfolding of `ERRORDatagram.from_wire` on a payload of length ≥ 2. -/
theorem error_from_wire_cons (b0 b1 : Nat) (rest : Bytes) :
    ERRORDatagram.from_wire (b0 :: b1 :: rest) =
      match errors (b0 * 256 + b1) with
      | none => Except.error (TFTPError.invalidErrorcodeError (b0 * 256 + b1))
      | some dflt =>
        Except.ok (Datagram.error (b0 * 256 + b1)
          (if (pySplit 0 rest).headD [] = [] then dflt
           else (pySplit 0 rest).headD [])) := rfl

/-- C2 counterexample: the codec does produce Error messages with an empty
text — parsing code 0 with no message yields the empty default, as does
`from_code(0)`; and `from_code` with an explicitly empty message performs
no substitution at all, even for a non-zero code. -/
theorem C2_empty_message_cex :
    ERRORDatagram.from_wire [0, 0] = Except.ok (Datagram.error 0 []) ∧
    ERRORDatagram.from_code 0 none = Except.ok (Datagram.error 0 []) ∧
    ERRORDatagram.from_code 3 (some []) = Except.ok (Datagram.error 3 []) := by
  refine ⟨rfl, rfl, ?_⟩
  decide

/-- C2 amended: an Error message obtained by parsing a wire payload, or
via `from_code` with the message omitted, has a non-empty text for every
error code other than 0 (code 0's registry default is itself empty); a
message explicitly supplied to `from_code` is stored unchanged, with no
substitution. -/
theorem C2_error_nonempty_amended (payload : Bytes) (c : Nat) (m : Bytes) :
    (ERRORDatagram.from_wire payload = Except.ok (Datagram.error c m) →
      c ≠ 0 → m ≠ []) ∧
    (ERRORDatagram.from_code c none = Except.ok (Datagram.error c m) →
      c ≠ 0 → m ≠ []) ∧
    (∀ msg, ERRORDatagram.from_code c (some msg) = Except.ok (Datagram.error c m) →
      m = msg) := by
  refine ⟨?_, ?_, ?_⟩
  · intro h hc
    match payload with
    | [] => simp [ERRORDatagram.from_wire] at h
    | [b] => simp [ERRORDatagram.from_wire] at h
    | b0 :: b1 :: rest =>
      rw [error_from_wire_cons] at h
      cases herr : errors (b0 * 256 + b1) with
      | none =>
        rw [herr] at h
        simp at h
      | some dflt =>
        rw [herr] at h
        simp only [Except.ok.injEq, Datagram.error.injEq] at h
        obtain ⟨hec, hm⟩ := h
        intro hnil
        by_cases hmsg : (pySplit 0 rest).headD [] = []
        · rw [if_pos hmsg] at hm
          have hd : dflt ≠ [] := by
            refine errors_default_ne_nil (b0 * 256 + b1) dflt ?_ herr
            omega
          exact hd (hm.trans hnil)
        · rw [if_neg hmsg] at hm
          exact hmsg (hm.trans hnil)
  · intro h hc
    unfold ERRORDatagram.from_code at h
    cases herr : errors c with
    | none =>
      rw [herr] at h
      simp at h
    | some dflt =>
      rw [herr] at h
      simp only [Option.getD_none, ERRORDatagram.init, Except.ok.injEq,
        Datagram.error.injEq] at h
      intro hnil
      have hd : dflt ≠ [] := errors_default_ne_nil c dflt hc herr
      exact hd (h.2.trans hnil)
  · intro msg h
    unfold ERRORDatagram.from_code at h
    cases herr : errors c with
    | none =>
      rw [herr] at h
      simp at h
    | some dflt =>
      rw [herr] at h
      simp only [Option.getD_some, ERRORDatagram.init, Except.ok.injEq,
        Datagram.error.injEq] at h
      exact h.2.symm

/-- Witness for the amended C2: parsing 0x0001 `foobar` and
`from_code(1)` give non-empty texts; `from_code(3, "custom")` stores the
supplied message unchanged. -/
theorem C2_error_nonempty_amended_witness :
    strBytes ("foobar") ≠ [] ∧
    strBytes ("File not found") ≠ [] ∧
    strBytes ("custom") = strBytes ("custom") := by
  refine ⟨?_, ?_, ?_⟩
  · exact (C2_error_nonempty_amended ([0, 1] ++ strBytes ("foobar")) 1
      (strBytes ("foobar"))).1 (by decide) (by decide)
  · exact (C2_error_nonempty_amended [] 1 (strBytes ("File not found"))).2.1
      (by decide) (by decide)
  · exact ((C2_error_nonempty_amended [] 3 (strBytes ("custom"))).2.2
      (strBytes ("custom")) (by decide)).symm

/-- C6 counterexample: on the payload 0x0001 (code 1, no message bytes)
the bytes after the code up to the first NUL are empty, yet the parsed
message text is the registry default `File not found` — the claim's final
clause omits the default-substitution step. -/
theorem C6_error_parse_cex :
    ERRORDatagram.from_wire [0, 1] =
      Except.ok (Datagram.error 1 (strBytes ("File not found"))) ∧
    ([] : Bytes).takeWhile (fun b => b != 0) = [] ∧
    strBytes ("File not found") ≠ [] := by
  refine ⟨?_, rfl, by decide⟩
  decide

/-- C6 amended: error-message parse fails with `PayloadDecodeError` for
every payload of length < 2; fails with `InvalidErrorcodeError(code)`
when the first two bytes (big-endian) encode a code outside the registry;
otherwise the message text is the bytes after the code up to the first
NUL, except that when those bytes are empty the registry's default
message for the code is substituted. -/
theorem C6_error_parse_amended (payload : Bytes) :
    (payload.length < 2 →
      ERRORDatagram.from_wire payload =
        Except.error (TFTPError.payloadDecodeError (some ("Unable to extract the error code")))) ∧
    (∀ b0 b1 rest, payload = b0 :: b1 :: rest → errors (b0 * 256 + b1) = none →
      ERRORDatagram.from_wire payload =
        Except.error (TFTPError.invalidErrorcodeError (b0 * 256 + b1))) ∧
    (∀ b0 b1 rest dflt, payload = b0 :: b1 :: rest →
      errors (b0 * 256 + b1) = some dflt →
      ERRORDatagram.from_wire payload =
        Except.ok (Datagram.error (b0 * 256 + b1)
          (if rest.takeWhile (fun b => b != 0) = [] then dflt
           else rest.takeWhile (fun b => b != 0)))) := by
  refine ⟨?_, ?_, ?_⟩
  · intro hlen
    match payload with
    | [] => rfl
    | [b] => rfl
    | b0 :: b1 :: rest =>
      simp only [List.length_cons] at hlen
      omega
  · intro b0 b1 rest hp herr
    subst hp
    rw [error_from_wire_cons, herr]
  · intro b0 b1 rest dflt hp herr
    subst hp
    rw [error_from_wire_cons, herr, pySplit_headD]

/-- Witness for the amended C6 at the payloads 0x00 (short),
0x000e `foobar` (invalid code 14) and 0x0001 `foobar`. -/
theorem C6_error_parse_amended_witness :
    ERRORDatagram.from_wire [0] =
      Except.error (TFTPError.payloadDecodeError (some ("Unable to extract the error code"))) ∧
    ERRORDatagram.from_wire ([0, 14] ++ strBytes ("foobar")) =
      Except.error (TFTPError.invalidErrorcodeError 14) ∧
    ERRORDatagram.from_wire ([0, 1] ++ strBytes ("foobar")) =
      Except.ok (Datagram.error 1 (strBytes ("foobar"))) := by
  refine ⟨?_, ?_, ?_⟩
  · exact (C6_error_parse_amended [0]).1 (by decide)
  · have h := (C6_error_parse_amended ([0, 14] ++ strBytes ("foobar"))).2.1
      0 14 (strBytes ("foobar")) (by decide) (by decide)
    simpa using h
  · have h := (C6_error_parse_amended ([0, 1] ++ strBytes ("foobar"))).2.2
      0 1 (strBytes ("foobar")) (strBytes ("File not found")) (by decide) (by decide)
    rw [h]
    decide

/-- C4 counterexample: `ERRORDatagram.__init__` performs no validation, so
an Error message with code 8 — outside the registry — is constructed
without failure, and its serialization also succeeds. -/
theorem C4_no_validation_cex :
    ERRORDatagram.init 8 (strBytes ("x")) = Datagram.error 8 (strBytes ("x")) ∧
    errors 8 = none ∧
    to_wire (ERRORDatagram.init 8 (strBytes ("x"))) = some [0, 5, 0, 8, 120, 0] := by
  refine ⟨rfl, by decide, ?_⟩
  decide

/-- C4 amended: only `from_code` pre-validates the error code, failing
with `InvalidErrorcodeError` for every code outside the registry; direct
field construction stores any code unchecked, and serialization of such a
message still succeeds whenever the code fits in 16 bits. -/
theorem C4_validation_amended (c : Nat) (m : Bytes) :
    (errors c = none → ∀ mo, ERRORDatagram.from_code c mo =
      Except.error (TFTPError.invalidErrorcodeError c)) ∧
    (ERRORDatagram.init c m = Datagram.error c m) ∧
    (c < 65536 → to_wire (ERRORDatagram.init c m) =
      some ([0, 5, c / 256, c % 256] ++ m ++ [0])) := by
  refine ⟨?_, rfl, ?_⟩
  · intro h mo
    unfold ERRORDatagram.from_code
    rw [h]
  · intro hc
    simp only [ERRORDatagram.init, to_wire, pack16, if_pos hc]
    norm_num

/-- Witness for the amended C4 at code 8 with message `x`. -/
theorem C4_validation_amended_witness :
    ERRORDatagram.from_code 8 none =
      Except.error (TFTPError.invalidErrorcodeError 8) ∧
    to_wire (ERRORDatagram.init 8 (strBytes ("x"))) =
      some ([0, 5, 0, 8] ++ strBytes ("x") ++ [0]) := by
  constructor
  · exact (C4_validation_amended 8 (strBytes ("x"))).1 (by decide) none
  · have h := (C4_validation_amended 8 (strBytes ("x"))).2.2 (by decide)
    simpa using h

/-- Splitting a serialized request payload `filename ++ 0 ++ mode ++ 0`
with NUL-free fields yields exactly the three chunks
`[filename, mode, empty]`. -/
theorem rq_payload_split (f lm : Bytes) (hf : 0 ∉ f) (hm : 0 ∉ lm) :
    pySplit 0 (f ++ [0] ++ lm ++ [0]) = [f, lm, []] := by
  have h1 : f ++ [0] ++ lm ++ [0] = f ++ 0 :: (lm ++ 0 :: []) := by
    simp
  rw [h1, pySplit_append 0 f _ hf, pySplit_append 0 lm _ hm]
  rfl

/-- Parsing a serialized request payload with NUL-free fields recovers
the filename and the (re-lower-cased) mode, for both request kinds. -/
theorem rq_from_wire_serialized (f lm : Bytes) (hf : 0 ∉ f) (hm : 0 ∉ lm) :
    RQDatagram.from_wire RRQDatagram.init (f ++ [0] ++ lm ++ [0]) =
      Except.ok (Datagram.rrq f (pyLower lm)) ∧
    RQDatagram.from_wire WRQDatagram.init (f ++ [0] ++ lm ++ [0]) =
      Except.ok (Datagram.wrq f (pyLower lm)) := by
  have hs := rq_payload_split f lm hf hm
  constructor
  · unfold RQDatagram.from_wire
    rw [hs]
    rfl
  · unfold RQDatagram.from_wire
    rw [hs]
    rfl

/-- C1 counterexample: the Error message directly constructed from code 1
and the empty message does not survive the round trip — parsing its wire
form substitutes the registry default `File not found`, so the fields are
not equal to the original's. -/
theorem C1_roundtrip_cex :
    roundtrip (ERRORDatagram.init 1 []) =
      some (Datagram.error 1 (strBytes ("File not found"))) ∧
    ERRORDatagram.init 1 [] ≠ Datagram.error 1 (strBytes ("File not found")) := by
  constructor
  · decide
  · decide

/-- C1 amended: the round trip
`Factory.create(*Splitter.split(M.serialize()))` returns a message with
fields equal to `M`'s for every constructed message whose byte-string
fields are NUL-free, whose numeric fields fit in 16 bits, whose error
code is in the registry, and whose error message is non-empty unless the
registry default for its code is itself empty. -/
theorem C1_roundtrip_amended (f m d em : Bytes) (bn c : Nat) :
    (0 ∉ f → 0 ∉ m →
      roundtrip (RRQDatagram.init f m) = some (RRQDatagram.init f m)) ∧
    (0 ∉ f → 0 ∉ m →
      roundtrip (WRQDatagram.init f m) = some (WRQDatagram.init f m)) ∧
    (bn < 65536 →
      roundtrip (DATADatagram.init bn d) = some (DATADatagram.init bn d)) ∧
    (bn < 65536 →
      roundtrip (ACKDatagram.init bn) = some (ACKDatagram.init bn)) ∧
    (∀ dflt, errors c = some dflt → 0 ∉ em → (em = [] → dflt = []) →
      roundtrip (ERRORDatagram.init c em) = some (ERRORDatagram.init c em)) := by
  refine ⟨?_, ?_, ?_, ?_, ?_⟩
  · intro hf hm
    have hlm : 0 ∉ pyLower m := pyLower_zero_not_mem m hm
    have h1 : to_wire (Datagram.rrq f (pyLower m)) =
        some ([0, 1] ++ f ++ [0] ++ pyLower m ++ [0]) := rfl
    have h2 : split_opcode ([0, 1] ++ f ++ [0] ++ pyLower m ++ [0]) =
        Except.ok (1, f ++ [0] ++ pyLower m ++ [0]) := rfl
    have h3 := (rq_from_wire_serialized f (pyLower m) hf hlm).1
    simp only [RRQDatagram.init, roundtrip, h1, h2, TFTPDatagramFactory, reduceIte,
      h3, pyLower_idem]
  · intro hf hm
    have hlm : 0 ∉ pyLower m := pyLower_zero_not_mem m hm
    have h1 : to_wire (Datagram.wrq f (pyLower m)) =
        some ([0, 2] ++ f ++ [0] ++ pyLower m ++ [0]) := rfl
    have h2 : split_opcode ([0, 2] ++ f ++ [0] ++ pyLower m ++ [0]) =
        Except.ok (2, f ++ [0] ++ pyLower m ++ [0]) := rfl
    have h3 := (rq_from_wire_serialized f (pyLower m) hf hlm).2
    have hfac : TFTPDatagramFactory 2 (f ++ [0] ++ pyLower m ++ [0]) =
        RQDatagram.from_wire WRQDatagram.init (f ++ [0] ++ pyLower m ++ [0]) := rfl
    simp only [WRQDatagram.init, roundtrip, h1, h2, hfac, h3, pyLower_idem]
  · intro hbn
    have h1 : to_wire (Datagram.data bn d) =
        some ([0, 3] ++ [bn / 256, bn % 256] ++ d) := by
      simp only [to_wire, pack16, if_pos hbn]
      norm_num
    have h2 : split_opcode ([0, 3] ++ [bn / 256, bn % 256] ++ d) =
        Except.ok (3, bn / 256 :: bn % 256 :: d) := rfl
    have h3 : DATADatagram.from_wire (bn / 256 :: bn % 256 :: d) =
        Except.ok (Datagram.data (bn / 256 * 256 + bn % 256) d) := rfl
    have h4 : bn / 256 * 256 + bn % 256 = bn := by omega
    have hfac : TFTPDatagramFactory 3 (bn / 256 :: bn % 256 :: d) =
        DATADatagram.from_wire (bn / 256 :: bn % 256 :: d) := rfl
    simp only [DATADatagram.init, roundtrip, h1, h2, hfac, h3, h4]
  · intro hbn
    have h1 : to_wire (Datagram.ack bn) =
        some ([0, 4] ++ [bn / 256, bn % 256]) := by
      simp only [to_wire, pack16, if_pos hbn]
      norm_num
    have h2 : split_opcode ([0, 4] ++ [bn / 256, bn % 256]) =
        Except.ok (4, [bn / 256, bn % 256]) := rfl
    have h3 : ACKDatagram.from_wire [bn / 256, bn % 256] =
        Except.ok (Datagram.ack (bn / 256 * 256 + bn % 256)) := rfl
    have h4 : bn / 256 * 256 + bn % 256 = bn := by omega
    have hfac : TFTPDatagramFactory 4 [bn / 256, bn % 256] =
        ACKDatagram.from_wire [bn / 256, bn % 256] := rfl
    simp only [ACKDatagram.init, roundtrip, h1, h2, hfac, h3, h4]
  · intro dflt herr hem hdf
    have hc7 : c ≤ 7 := errors_mem_le c dflt herr
    have hdiv : c / 256 = 0 := by omega
    have hmod : c % 256 = c := by omega
    have h1 : to_wire (Datagram.error c em) =
        some ([0, 5] ++ [0, c] ++ em ++ [0]) := by
      simp only [to_wire, pack16]
      rw [if_pos (by omega : c < 65536)]
      simp [hdiv, hmod]
    have h2 : split_opcode ([0, 5] ++ [0, c] ++ em ++ [0]) =
        Except.ok (5, 0 :: c :: (em ++ [0])) := rfl
    have h3 : ERRORDatagram.from_wire (0 :: c :: (em ++ [0])) =
        Except.ok (Datagram.error c em) := by
      rw [error_from_wire_cons]
      have hce : 0 * 256 + c = c := by omega
      rw [hce, herr]
      have hsp : pySplit 0 (em ++ [0]) = [em, []] := by
        have h := pySplit_append 0 em [] hem
        simpa [pySplit] using h
      rw [hsp]
      simp only [List.headD_cons]
      by_cases he : em = []
      · rw [if_pos he, hdf he, he]
      · rw [if_neg he]
    have hfac : TFTPDatagramFactory 5 (0 :: c :: (em ++ [0])) =
        ERRORDatagram.from_wire (0 :: c :: (em ++ [0])) := rfl
    simp only [ERRORDatagram.init, roundtrip, h1, h2, hfac, h3]

/-- Witness for the amended C1: a concrete message of each of the five
kinds survives the round trip. -/
theorem C1_roundtrip_amended_witness :
    roundtrip (RRQDatagram.init (strBytes ("foo")) (strBytes ("Octet"))) =
      some (RRQDatagram.init (strBytes ("foo")) (strBytes ("Octet"))) ∧
    roundtrip (WRQDatagram.init (strBytes ("foo")) (strBytes ("bar"))) =
      some (WRQDatagram.init (strBytes ("foo")) (strBytes ("bar"))) ∧
    roundtrip (DATADatagram.init 1 (strBytes ("foobar"))) =
      some (DATADatagram.init 1 (strBytes ("foobar"))) ∧
    roundtrip (ACKDatagram.init 10) = some (ACKDatagram.init 10) ∧
    roundtrip (ERRORDatagram.init 3 (strBytes ("custom"))) =
      some (ERRORDatagram.init 3 (strBytes ("custom"))) := by
  refine ⟨?_, ?_, ?_, ?_, ?_⟩
  · exact (C1_roundtrip_amended (strBytes ("foo")) (strBytes ("Octet")) [] [] 0 0).1
      (by decide) (by decide)
  · exact (C1_roundtrip_amended (strBytes ("foo")) (strBytes ("bar")) [] [] 0 0).2.1
      (by decide) (by decide)
  · exact (C1_roundtrip_amended [] [] (strBytes ("foobar")) [] 1 0).2.2.1 (by decide)
  · exact (C1_roundtrip_amended [] [] [] [] 10 0).2.2.2.1 (by decide)
  · exact (C1_roundtrip_amended [] [] [] (strBytes ("custom")) 0 3).2.2.2.2
      (strBytes ("Disk full or allocation exceeded")) (by decide) (by decide)
      (by intro h; cases h)

end TFTP
